import Mathlib

/-!
Shallow embedding of `src/keypair.js` (the `Keypair` class and its helper
subclass `KeypairFromGenerated`) from the 25Money repository.

External collaborators (the bip39 mnemonic service, the ed25519 utility
module and the thin `PublicKey` wrapper) are modelled as an explicit
oracle structure `Env`.  The two randomness-consuming oracles
(`bip39.generateMnemonic` and the ed25519 `generateKeypair`) take an
explicit seed argument, so that every operation of the class is a pure
function of the environment, the seeds it consumes and its declared
arguments.  JavaScript exceptions become `Except KeypairError`.
-/

/-- Bytes are modelled as natural numbers; a `Uint8Array` as a `List Nat`. -/
abbrev Bytes := List Nat

/-- The raw keypair record `{ publicKey, secretKey }` returned by the
ed25519 utility module. -/
structure RawKeypair where
  publicKey : Bytes
  secretKey : Bytes
  deriving DecidableEq, Repr

/-- The thin `PublicKey` wrapper: holds 32 raw bytes, no behaviour beyond
storage and equality. -/
structure PublicKey where
  bytes : Bytes
  deriving DecidableEq, Repr

/-- The four caller-visible failure kinds of the keypair core, one per
distinct `throw new Error(...)` message in `src/keypair.js`. -/
inductive KeypairError where
  | InvalidMnemonic
  | InvalidKeyLength
  | KeyMismatch
  | NoMnemonicAvailable
  deriving DecidableEq, Repr

instance {ε α : Type} [DecidableEq ε] [DecidableEq α] : DecidableEq (Except ε α) := fun a b =>
  match a, b with
  | .ok x, .ok y =>
    if h : x = y then isTrue (by rw [h]) else isFalse (fun hh => h (by injection hh))
  | .ok _, .error _ => isFalse (fun hh => Except.noConfusion hh)
  | .error _, .ok _ => isFalse (fun hh => Except.noConfusion hh)
  | .error x, .error y =>
    if h : x = y then isTrue (by rw [h]) else isFalse (fun hh => h (by injection hh))

/-- The external services consumed by `keypair.js`:
`bip39.validateMnemonic`, `bip39.generateMnemonic` (randomness as a seed),
and the ed25519 utilities `fromMnemonic`, `getPublicKey`,
`generateKeypair` (randomness as a seed). -/
structure Env where
  validateMnemonic : String → Bool
  generateMnemonic : Nat → String
  fromMnemonicUtil : String → RawKeypair
  getPublicKey : Bytes → Bytes
  generateKeypairUtil : Nat → RawKeypair

/-- The `Keypair` instance state: the private fields `_keypair` and
`_mnemonic` (`_mnemonic` is `none` when the JS field is `undefined`). -/
structure Keypair where
  _keypair : RawKeypair
  _mnemonic : Option String
  deriving DecidableEq, Repr

/-- The `else` branch of `constructor(mnemonic)` (lines 31-35): generate a
fresh mnemonic via the mnemonic service and derive the keypair from it.
This is also exactly what `super()` runs inside `KeypairFromGenerated`. -/
def Keypair.constructFresh (env : Env) (seed : Nat) : Keypair :=
  let m := env.generateMnemonic seed
  { _keypair := env.fromMnemonicUtil m, _mnemonic := some m }

/-- `constructor(mnemonic)` (lines 23-36).  `if (mnemonic)` tests JS
truthiness: an `undefined` argument or the empty string takes the fresh
branch; a non-empty string is validated and used. -/
def Keypair.construct (env : Env) (seed : Nat) (mnemonic : Option String) :
    Except KeypairError Keypair :=
  match mnemonic with
  | some m =>
    if m = "" then
      .ok (Keypair.constructFresh env seed)
    else if env.validateMnemonic m = false then
      .error .InvalidMnemonic
    else
      .ok { _keypair := env.fromMnemonicUtil m, _mnemonic := some m }
  | none => .ok (Keypair.constructFresh env seed)

/-- `class KeypairFromGenerated extends Keypair` (lines 136-141): its
constructor runs `super()` — the no-argument `Keypair` constructor, which
generates a fresh mnemonic and stores it in `_mnemonic` — and then
overwrites only `_keypair` with the supplied record. -/
def KeypairFromGenerated (env : Env) (seed : Nat) (kp : RawKeypair) : Keypair :=
  let inst := Keypair.constructFresh env seed
  { inst with _keypair := kp }

/-- `static generate()` (lines 43-46): obtain a random raw keypair from
the ed25519 utility and wrap it via `KeypairFromGenerated`.  `seedKp`
feeds the curve generator, `seedMn` the mnemonic generation performed by
`super()` inside `KeypairFromGenerated`. -/
def Keypair.generate (env : Env) (seedKp seedMn : Nat) : Keypair :=
  let keypair := env.generateKeypairUtil seedKp
  KeypairFromGenerated env seedMn keypair

/-- `static fromMnemonic(mnemonic)` (lines 54-63): validate, derive the
raw keypair, build a throwaway `new Keypair()` (which consumes randomness
through the fresh-mnemonic path) and overwrite both of its fields. -/
def Keypair.fromMnemonicS (env : Env) (seed : Nat) (m : String) :
    Except KeypairError Keypair :=
  if env.validateMnemonic m = false then
    .error .InvalidMnemonic
  else
    let keypair := env.fromMnemonicUtil m
    let inst := Keypair.constructFresh env seed
    .ok { inst with _keypair := keypair, _mnemonic := some m }

/-- `get publicKey()` (lines 70-72): wrap `_keypair.publicKey`. -/
def Keypair.publicKey (k : Keypair) : PublicKey :=
  { bytes := k._keypair.publicKey }

/-- `get secretKey()` (lines 79-81): a fresh copy of `_keypair.secretKey`
(value semantics make the copy identity here). -/
def Keypair.secretKey (k : Keypair) : Bytes :=
  k._keypair.secretKey

/-- `getMnemonic()` (lines 88-90): the stored `_mnemonic`, `none` for the
JS `undefined`. -/
def Keypair.getMnemonic (k : Keypair) : Option String :=
  k._mnemonic

/-- `recoverFromMnemonic()` (lines 97-102): `if (!this._mnemonic)` is JS
falsiness — `undefined` or the empty string — and throws; otherwise
delegate to the static `fromMnemonic`. -/
def Keypair.recoverFromMnemonic (env : Env) (seed : Nat) (k : Keypair) :
    Except KeypairError Keypair :=
  match k._mnemonic with
  | none => .error .NoMnemonicAvailable
  | some m =>
    if m = "" then .error .NoMnemonicAvailable
    else Keypair.fromMnemonicS env seed m

/-- The byte-comparison loop of `fromSecretKey` (lines 122-126): indices
0..31, `!==` on possibly-undefined entries modelled by `Option` access. -/
def pkMismatch (publicKey computedPublicKey : Bytes) : Bool :=
  (List.range 32).any (fun i => publicKey[i]? != computedPublicKey[i]?)

/-- `static fromSecretKey(secretKey, options = {})` (lines 111-130):
reject non-64-byte input, slice out the claimed public key, optionally
recompute and compare, then wrap via `KeypairFromGenerated` (whose
`super()` consumes `seed` to generate a leftover mnemonic). -/
def Keypair.fromSecretKey (env : Env) (seed : Nat) (secretKey : Bytes)
    (skipValidation : Bool) : Except KeypairError Keypair :=
  if secretKey.length ≠ 64 then
    .error .InvalidKeyLength
  else
    let publicKey := (secretKey.drop 32).take 32
    if skipValidation = false then
      let privateKey := secretKey.take 32
      let computedPublicKey := env.getPublicKey privateKey
      if pkMismatch publicKey computedPublicKey then
        .error .KeyMismatch
      else
        .ok (KeypairFromGenerated env seed { publicKey := publicKey, secretKey := secretKey })
    else
      .ok (KeypairFromGenerated env seed { publicKey := publicKey, secretKey := secretKey })

/-- A concrete environment used to evaluate the code on explicit inputs.
`validateMnemonic` accepts exactly two phrases — including the output of
`generateMnemonic`, matching real bip39 where generated mnemonics always
validate — and `fromMnemonicUtil` depends on its argument so distinct
mnemonics derive distinct keys. -/
def envC : Env where
  validateMnemonic := fun s => s = "alpha beta gamma" || s = "fresh words"
  generateMnemonic := fun _ => "fresh words"
  fromMnemonicUtil := fun s =>
    { publicKey := List.replicate 32 (s.length % 256)
      secretKey := List.replicate 64 (s.length % 256) }
  getPublicKey := fun _ => List.replicate 32 0
  generateKeypairUtil := fun _ =>
    { publicKey := List.replicate 32 3, secretKey := List.replicate 64 3 }

/-- A concrete 64-byte secret key whose trailing half does not match what
`envC.getPublicKey` computes from its leading half. -/
def k64 : Bytes := List.replicate 64 7

/-- A 64-byte secret key that passes validation under `envC`: its leading
half maps to `List.replicate 32 0` under `envC.getPublicKey`, which equals
its trailing half. -/
def k64v : Bytes := List.replicate 32 5 ++ List.replicate 32 0

/-- The keypair that `fromSecretKey envC 0 k64 true` produces: raw keys
split from `k64`, plus the leftover mnemonic generated by `super()`. -/
def kpGen : Keypair :=
  { _keypair := { publicKey := List.replicate 32 7, secretKey := k64 },
    _mnemonic := some ("fresh words") }

/-- The keypair that recovering from the leftover mnemonic produces:
derived from the phrase `"fresh words"`, unrelated to `kpGen`'s keys. -/
def kpRec : Keypair :=
  { _keypair := envC.fromMnemonicUtil ("fresh words"),
    _mnemonic := some ("fresh words") }

/-- C1: the claim says keypairs from `generate()` and from `fromSecretKey`
(with or without `skipValidation`) have no mnemonic attached.  Evaluating
the code shows the opposite: on every such path `KeypairFromGenerated`
runs `super()`, which generates and stores a fresh mnemonic that is never
cleared, so `getMnemonic()` returns a present value, not the absent
signal. -/
theorem C1_generated_keypairs_carry_mnemonic :
    (Keypair.generate envC 0 1).getMnemonic = some ("fresh words") ∧
    (Keypair.fromSecretKey envC 1 k64 true).map Keypair.getMnemonic =
      .ok (some ("fresh words")) ∧
    (Keypair.fromSecretKey envC 1 k64v false).map Keypair.getMnemonic =
      .ok (some ("fresh words")) ∧
    some ("fresh words") ≠ (none : Option String) := by decide

/-- C2: the claim says every keypair holding a mnemonic derives back to
its own stored keys.  Evaluating the code: `fromSecretKey` (skipping
validation) returns `kpGen`, whose mnemonic is present but derives to
keys different from the stored ones — the construction path via
`KeypairFromGenerated` violates the invariant. -/
theorem C2_mnemonic_inconsistent_with_stored_keys :
    Keypair.fromSecretKey envC 0 k64 true = .ok kpGen ∧
    kpGen.getMnemonic = some ("fresh words") ∧
    envC.fromMnemonicUtil ("fresh words") ≠ kpGen._keypair := by decide

/-- C3: the claim says `recoverFromMnemonic()` on a `fromSecretKey`-built
keypair fails with `NoMnemonicAvailableError`.  Evaluating the code: the
leftover mnemonic from `super()` is present (and validates, as real bip39
generated mnemonics always do), so recovery succeeds and returns a
keypair with entirely different keys. -/
theorem C3_recover_succeeds_on_raw_key_keypair :
    Keypair.fromSecretKey envC 0 k64 true = .ok kpGen ∧
    Keypair.recoverFromMnemonic envC 1 kpGen = .ok kpRec ∧
    Keypair.recoverFromMnemonic envC 1 kpGen ≠ .error .NoMnemonicAvailable ∧
    kpRec._keypair ≠ kpGen._keypair := by decide

/-- C4 counterexample: the empty string fails mnemonic validation, yet the
constructor does not raise `InvalidMnemonicError` on it — JS truthiness
sends `""` down the fresh-mnemonic branch, so the constructor succeeds. -/
theorem C4_empty_string_constructor_counterexample :
    envC.validateMnemonic ("") = false ∧
    Keypair.construct envC 0 (some ("")) ≠ .error .InvalidMnemonic ∧
    Keypair.construct envC 0 (some ("")) = .ok (Keypair.constructFresh envC 0) := by
  decide

/-- C4 (amended): for every mnemonic string failing validation,
`fromMnemonic` fails with `InvalidMnemonicError`; the constructor fails
likewise for every NON-EMPTY such string, but treats the empty string
exactly like an omitted mnemonic (fresh generation) instead of failing. -/
theorem C4_invalid_mnemonic_rejected_amended (env : Env) (seed : Nat) (m : String)
    (hv : env.validateMnemonic m = false) :
    Keypair.fromMnemonicS env seed m = .error .InvalidMnemonic ∧
    (m ≠ "" → Keypair.construct env seed (some m) = .error .InvalidMnemonic) ∧
    Keypair.construct env seed (some ("")) = Keypair.construct env seed none := by
  refine ⟨?_, ?_, ?_⟩
  · simp [Keypair.fromMnemonicS, hv]
  · intro hm
    simp [Keypair.construct, hm, hv]
  · simp [Keypair.construct]

/-- C4 witness: the amended theorem applied at the concrete invalid
phrase `"bogus"` in `envC`. -/
theorem C4_invalid_mnemonic_rejected_witness :
    Keypair.construct envC 0 (some ("bogus")) = .error .InvalidMnemonic :=
  (C4_invalid_mnemonic_rejected_amended envC 0 ("bogus") (by decide)).2.1 (by decide)

/-- C5: for every 64-byte secret key whose trailing 32 bytes differ at
some index from the public key the curve service computes from its
leading 32 bytes, `fromSecretKey` without `skipValidation` fails with
`KeyMismatchError`, while with `skipValidation` it succeeds and stores
exactly the claimed public key `k[32:64]` and the full `k` as secret
key. -/
theorem C5_fromSecretKey_mismatch_validation (env : Env) (seed : Nat) (k : Bytes)
    (hlen : k.length = 64)
    (hmism : ∃ i, i < 32 ∧ ((k.drop 32).take 32)[i]? ≠ (env.getPublicKey (k.take 32))[i]?) :
    Keypair.fromSecretKey env seed k false = .error .KeyMismatch ∧
    Keypair.fromSecretKey env seed k true =
      .ok { _keypair := { publicKey := (k.drop 32).take 32, secretKey := k },
            _mnemonic := some (env.generateMnemonic seed) } := by
  have hmb : pkMismatch ((k.drop 32).take 32) (env.getPublicKey (k.take 32)) = true := by
    obtain ⟨i, hi, hne⟩ := hmism
    simp only [pkMismatch, List.any_eq_true, List.mem_range]
    exact ⟨i, hi, by simpa [bne_iff_ne] using hne⟩
  constructor
  · simp [Keypair.fromSecretKey, hlen, hmb]
  · simp [Keypair.fromSecretKey, hlen, KeypairFromGenerated, Keypair.constructFresh]

/-- C5 witness: the theorem applied to the concrete key `k64`, whose
halves mismatch at index 0 under `envC`. -/
theorem C5_fromSecretKey_mismatch_witness :
    Keypair.fromSecretKey envC 2 k64 false = .error .KeyMismatch ∧
    Keypair.fromSecretKey envC 2 k64 true =
      .ok { _keypair := { publicKey := (k64.drop 32).take 32, secretKey := k64 },
            _mnemonic := some (envC.generateMnemonic 2) } :=
  C5_fromSecretKey_mismatch_validation envC 2 k64 (by decide) ⟨0, by decide⟩

/-- C6: `fromSecretKey` fails with `InvalidKeyLengthError` exactly on
inputs whose length is not 64, for either value of `skipValidation`; on
64-byte inputs that error never occurs. -/
theorem C6_fromSecretKey_length_check (env : Env) (seed : Nat) (k : Bytes) (skip : Bool) :
    (k.length ≠ 64 → Keypair.fromSecretKey env seed k skip = .error .InvalidKeyLength) ∧
    (k.length = 64 → Keypair.fromSecretKey env seed k skip ≠ .error .InvalidKeyLength) := by
  constructor
  · intro h
    simp [Keypair.fromSecretKey, h]
  · intro h
    have h64 : ¬ (k.length ≠ 64) := by simp [h]
    simp only [Keypair.fromSecretKey, if_neg h64]
    split
    · split <;> simp
    · simp

/-- C6 witness: a 3-byte input is rejected with `InvalidKeyLengthError`
even when validation is skipped; the 64-byte `k64` never triggers it. -/
theorem C6_fromSecretKey_length_witness :
    Keypair.fromSecretKey envC 0 (List.replicate 3 0) true = .error .InvalidKeyLength ∧
    Keypair.fromSecretKey envC 0 k64 true ≠ .error .InvalidKeyLength :=
  ⟨(C6_fromSecretKey_length_check envC 0 (List.replicate 3 0) true).1 (by decide),
   (C6_fromSecretKey_length_check envC 0 k64 true).2 (by decide)⟩

/-- C7: `fromMnemonic` is deterministic — for a valid mnemonic the result
does not depend on the randomness consumed internally (the seeds), and
any two calls return keypairs with identical public and secret keys. -/
theorem C7_fromMnemonic_deterministic (env : Env) (s1 s2 : Nat) (m : String)
    (hv : env.validateMnemonic m = true) :
    Keypair.fromMnemonicS env s1 m = Keypair.fromMnemonicS env s2 m ∧
    (∀ kp1 kp2, Keypair.fromMnemonicS env s1 m = .ok kp1 →
      Keypair.fromMnemonicS env s2 m = .ok kp2 →
      kp1.publicKey = kp2.publicKey ∧ kp1.secretKey = kp2.secretKey) := by
  constructor
  · rfl
  · intro kp1 kp2 h1 h2
    simp only [Keypair.fromMnemonicS, hv, Bool.true_eq_false, if_neg, ite_false,
      Except.ok.injEq] at h1 h2
    rw [← h1, ← h2]
    exact ⟨rfl, rfl⟩

/-- C7 witness: two calls with different seeds on the concrete valid
phrase agree. -/
theorem C7_fromMnemonic_deterministic_witness :
    Keypair.fromMnemonicS envC 0 ("alpha beta gamma") =
      Keypair.fromMnemonicS envC 1 ("alpha beta gamma") :=
  (C7_fromMnemonic_deterministic envC 0 1 ("alpha beta gamma") (by decide)).1

/-- C8: recovery round-trip — for a valid (hence non-empty) mnemonic,
`fromMnemonic m` yields the keypair with derived keys and mnemonic `m`,
and `recoverFromMnemonic` on that keypair succeeds and returns a keypair
with the same keys and the same mnemonic (structural identity; nothing is
mutated, every operation being a pure function of its inputs). -/
theorem C8_recovery_roundtrip (env : Env) (s1 s2 : Nat) (m : String)
    (hv : env.validateMnemonic m = true) (hne : m ≠ "") :
    Keypair.fromMnemonicS env s1 m =
      .ok { _keypair := env.fromMnemonicUtil m, _mnemonic := some m } ∧
    Keypair.recoverFromMnemonic env s2
        { _keypair := env.fromMnemonicUtil m, _mnemonic := some m } =
      .ok { _keypair := env.fromMnemonicUtil m, _mnemonic := some m } := by
  constructor
  · simp [Keypair.fromMnemonicS, hv]
  · simp [Keypair.recoverFromMnemonic, hne, Keypair.fromMnemonicS, hv]

/-- C8 witness: the round-trip at the concrete valid phrase. -/
theorem C8_recovery_roundtrip_witness :
    Keypair.recoverFromMnemonic envC 1
        { _keypair := envC.fromMnemonicUtil ("alpha beta gamma"),
          _mnemonic := some ("alpha beta gamma") } =
      .ok { _keypair := envC.fromMnemonicUtil ("alpha beta gamma"),
            _mnemonic := some ("alpha beta gamma") } :=
  (C8_recovery_roundtrip envC 0 1 ("alpha beta gamma") (by decide) (by decide)).2

/-- C9: the constructor with no mnemonic argument always succeeds with a
keypair whose `getMnemonic()` is present (the freshly generated phrase)
and whose stored keys are exactly what the curve service derives from
that phrase. -/
theorem C9_default_constructor_mnemonic_consistent (env : Env) (seed : Nat) :
    Keypair.construct env seed none = .ok (Keypair.constructFresh env seed) ∧
    (Keypair.constructFresh env seed).getMnemonic = some (env.generateMnemonic seed) ∧
    (Keypair.constructFresh env seed).getMnemonic ≠ none ∧
    env.fromMnemonicUtil (env.generateMnemonic seed) =
      (Keypair.constructFresh env seed)._keypair := by
  refine ⟨rfl, rfl, ?_, rfl⟩
  simp [Keypair.constructFresh, Keypair.getMnemonic]

/-- C9 witness: the default construction evaluated in `envC`. -/
theorem C9_default_constructor_witness :
    Keypair.construct envC 5 none = .ok (Keypair.constructFresh envC 5) :=
  (C9_default_constructor_mnemonic_consistent envC 5).1

/-- C10: the constructor raises `InvalidMnemonicError` iff its argument
is a non-empty string failing validation; the empty string behaves
exactly like an omitted argument, generating a fresh mnemonic, attaching
it and deriving the keypair from it; and `InvalidMnemonicError` is the
only error the constructor can raise. -/
theorem C10_constructor_truthiness (env : Env) (seed : Nat) (m : String) :
    (Keypair.construct env seed (some m) = .error .InvalidMnemonic ↔
      m ≠ "" ∧ env.validateMnemonic m = false) ∧
    Keypair.construct env seed (some ("")) = Keypair.construct env seed none ∧
    Keypair.construct env seed none =
      .ok { _keypair := env.fromMnemonicUtil (env.generateMnemonic seed),
            _mnemonic := some (env.generateMnemonic seed) } ∧
    (∀ e, Keypair.construct env seed (some m) = .error e → e = .InvalidMnemonic) := by
  refine ⟨?_, by simp [Keypair.construct], rfl, ?_⟩
  · by_cases hm : m = ""
    · subst hm
      simp [Keypair.construct]
    · by_cases hv : env.validateMnemonic m
      · simp [Keypair.construct, hm, hv]
      · simp only [Bool.not_eq_true] at hv
        simp [Keypair.construct, hm, hv]
  · intro e he
    by_cases hm : m = ""
    · subst hm
      simp [Keypair.construct] at he
    · by_cases hv : env.validateMnemonic m
      · simp [Keypair.construct, hm, hv] at he
      · simp only [Bool.not_eq_true] at hv
        simp [Keypair.construct, hm, hv] at he
        exact he.symm

/-- C10 witness: a non-empty invalid phrase is rejected and the empty
string matches the omitted-argument construction, at concrete inputs. -/
theorem C10_constructor_truthiness_witness :
    Keypair.construct envC 0 (some ("bogus")) = .error .InvalidMnemonic ∧
    Keypair.construct envC 0 (some ("")) = Keypair.construct envC 0 none :=
  ⟨(C10_constructor_truthiness envC 0 ("bogus")).1.mpr (by decide),
   (C10_constructor_truthiness envC 0 ("bogus")).2.1⟩
